import Mathlib

set_option maxRecDepth 4000

/-!
Shallow embedding of the CuentIA server (`src/index.js`).

The program orchestrates calls to a remote generative API.  Remote calls are
modelled by *environments*: a function `Nat → Option α` gives, for each 0-based
attempt index, either `none` (the call threw, or the response object was falsy)
or `some response` (the structured response).  Pure logic — retry loops, JSON
extraction, fallback construction, PCM decoding, URL building, HTTP branching —
is translated directly from the source.  Side effects (logging, file writes,
actually sleeping) are outside the model; the backoff *durations* and the list
of attempt indices slept on are tracked explicitly, since the spec speaks about
them.
-/

/-- Embeds the fixed attempt ceiling `const maxAttempts = 5` used by every
retry loop in `src/index.js` (lines 63, 155, 205). -/
def maxAttempts : Nat := 5

/-- Embeds the delay computed by `sleep` (line 49):
`Math.pow(2, attempt) * 1000 + Math.floor(Math.random() * 1000)` milliseconds.
`jitter` stands for the floored random draw `Math.floor(Math.random() * 1000)`,
an integer in `[0, 1000)`. -/
def sleepDelay (attempt jitter : Nat) : Nat :=
  2 ^ attempt * 1000 + jitter

/-- Embeds the shared shape of the story loop (lines 73-88), the per-prompt
image loop (lines 102-137) and the audio loop (lines 211-245):
`for (i = 0; i < maxAttempts; i++) { try { r = op(); if (pred r) break } catch {}; await sleep(i) }`.
`env i` is attempt `i`'s outcome (`none` = thrown error / falsy response);
`extract` is the success predicate together with the payload taken on success.
Returns `(result, attemptsMade, sleptIndices)`; every failing attempt sleeps
with its own index, including the last one. -/
def retryLoop {α β : Type} (extract : α → Option β) (env : Nat → Option α) :
    Nat → Nat → Option β × Nat × List Nat
  | _, 0 => (none, 0, [])
  | i, fuel + 1 =>
    match (env i).bind extract with
    | some b => (some b, 1, [])
    | none =>
      let r := retryLoop extract env (i + 1) fuel
      (r.1, r.2.1 + 1, i :: r.2.2)

/-- Embeds the story stage's success predicate (line 77):
`response && response.candidates && response.candidates.length > 0`, then
`candidates[0].content.parts[0].text` (line 78).  A response is modelled as the
list of its candidates' first-part texts. -/
def storyExtract : List String → Option String
  | [] => none
  | t :: _ => some t

/-- Embeds the story prompt template of line 69. -/
def cuentoPrompt (personaje lugar objeto : String) : String :=
  "Crea un cuento corto y original de aproximadamente 200 palabras. La historia debe incluir a un "
    ++ personaje ++ " en " ++ lugar ++ " con un " ++ objeto
    ++ ". El cuento debe tener un inicio, un desarrollo y un final."

/-- JSON whitespace (`JSON.parse` skips space, tab, line feed, carriage
return between tokens). -/
def isJsonWs (c : Char) : Bool :=
  c == ' ' || c == '\t' || c == '\n' || c == '\r'

/-- Whitespace removed by JavaScript `String.prototype.trim` (the code points
that can occur in our setting). -/
def isTrimWs (c : Char) : Bool :=
  c == ' ' || c == '\t' || c == '\n' || c == '\r' ||
  c == Char.ofNat 11 || c == Char.ofNat 12 || c == Char.ofNat 160 ||
  c == Char.ofNat 65279

/-- Embeds `jsonText.substring(jsonText.indexOf('['))` (line 171).
`indexOf` yields `-1` when `'['` is absent and `substring(-1)` clamps to `0`,
returning the whole string. -/
def fromFirstBracket (cs : List Char) : List Char :=
  if '[' ∈ cs then cs.dropWhile (fun c => c != '[') else cs

/-- Recursion core of `cleanFences`; `fuel` only bounds the recursion depth
(each step consumes at least one character, so `fuel = length` never runs
out). -/
def cleanFencesGo : Nat → List Char → List Char
  | _, [] => []
  | 0, cs => cs
  | fuel + 1, c :: rest =>
    if c = '`' ∧ rest.take 6 = ['`', '`', 'j', 's', 'o', 'n'] then
      cleanFencesGo fuel (rest.drop 6)
    else if c = '`' ∧ rest.take 2 = ['`', '`'] then
      cleanFencesGo fuel (rest.drop 2)
    else
      c :: cleanFencesGo fuel rest

/-- Embeds `.replace(/```json|```/g, '')` (line 171): a single left-to-right
pass, at each position preferring the alternative ```` ```json ```` over
```` ``` ````, continuing right after each removed match. -/
def cleanFences (cs : List Char) : List Char :=
  cleanFencesGo cs.length cs

/-- Embeds `String.prototype.trim` (line 171). -/
def trimChars (cs : List Char) : List Char :=
  ((cs.dropWhile isTrimWs).reverse.dropWhile isTrimWs).reverse

/-- Value of a hexadecimal digit, for `\uXXXX` escapes. -/
def hexVal (c : Char) : Option Nat :=
  if '0' ≤ c ∧ c ≤ '9' then some (c.toNat - 48)
  else if 'a' ≤ c ∧ c ≤ 'f' then some (c.toNat - 87)
  else if 'A' ≤ c ∧ c ≤ 'F' then some (c.toNat - 55)
  else none

/-- JSON string escape characters (`\" \\ \/ \b \f \n \r \t`). -/
def escChar : Char → Option Char
  | '"' => some '"'
  | '\\' => some '\\'
  | '/' => some '/'
  | 'b' => some (Char.ofNat 8)
  | 'f' => some (Char.ofNat 12)
  | 'n' => some '\n'
  | 'r' => some '\r'
  | 't' => some '\t'
  | _ => none

/-- Parses the body of a JSON string literal (the opening quote already
consumed), returning the decoded characters and the remaining input after the
closing quote.  Mirrors `JSON.parse`'s string grammar: raw control characters
are rejected, escapes are decoded, `\uXXXX` yields the coded character. -/
def parseJsStr : List Char → Option (List Char × List Char)
  | '"' :: rest => some ([], rest)
  | '\\' :: 'u' :: a :: b :: c :: d :: rest =>
    match hexVal a, hexVal b, hexVal c, hexVal d with
    | some ha, some hb, some hc, some hd =>
      let n := ((ha * 16 + hb) * 16 + hc) * 16 + hd
      if n < 55296 ∨ (57344 ≤ n ∧ n < 1114112) then
        match parseJsStr rest with
        | some (s, r) => some (Char.ofNat n :: s, r)
        | none => none
      else none
    | _, _, _, _ => none
  | '\\' :: e :: rest =>
    match escChar e with
    | some c =>
      match parseJsStr rest with
      | some (s, r) => some (c :: s, r)
      | none => none
    | none => none
  | c :: rest =>
    if c.toNat < 32 then none
    else
      match parseJsStr rest with
      | some (s, r) => some (c :: s, r)
      | none => none
  | [] => none

/-- Parses the elements of a non-empty JSON array of strings after the opening
`[`, requiring the closing `]` to end the input (up to trailing whitespace),
exactly as `JSON.parse(cleanedText)` requires the whole text to be one value.
`fuel` only bounds recursion depth. -/
def parseElems : Nat → List Char → Option (List String)
  | 0, _ => none
  | fuel + 1, cs =>
    match cs.dropWhile isJsonWs with
    | '"' :: rest =>
      match parseJsStr rest with
      | none => none
      | some (s, r) =>
        match r.dropWhile isJsonWs with
        | ',' :: r2 =>
          match parseElems fuel r2 with
          | none => none
          | some l => some (String.mk s :: l)
        | ']' :: r2 => if r2.dropWhile isJsonWs = [] then some [String.mk s] else none
        | _ => none
    | _ => none

/-- Embeds `JSON.parse(cleanedText)` (line 172) specialised to the shape the
code accepts afterwards: a JSON array whose elements are strings (the prompt of
lines 156-161 requests exactly a JSON array of strings).  Any input that is not
such an array yields `none`, which the caller treats the same as a thrown
`SyntaxError` or a non-array value: the attempt fails. -/
def parseArr (cs : List Char) : Option (List String) :=
  match cs.dropWhile isJsonWs with
  | '[' :: rest =>
    match rest.dropWhile isJsonWs with
    | ']' :: r2 => if r2.dropWhile isJsonWs = [] then some [] else none
    | _ => parseElems (cs.length + 1) rest
  | _ => none

/-- Embeds lines 171-175: clean the candidate text, parse it, and succeed only
when the result is a non-empty array (`Array.isArray(prompts) && prompts.length > 0`).
The returned list is the parsed array *before* `slice(0, numPrompts)`. -/
def extractPrompts (jsonText : String) : Option (List String) :=
  match parseArr (trimChars (cleanFences (fromFirstBracket jsonText.data))) with
  | some (p :: ps) => some (p :: ps)
  | _ => none

/-- Embeds `story.substring(a, b)` for `a ≤ b`: the characters from index `a`
up to `min b (length)`. -/
def jsSubstring (s : String) (a b : Nat) : String :=
  String.mk ((s.data.drop a).take (b - a))

/-- Embeds the deterministic fallback of lines 191-195. -/
def fallbackPrompts (story : String) : List String :=
  ["Render 3D de alta calidad, que muestre la escena principal del cuento: "
      ++ jsSubstring story 0 50 ++ "...",
   "Render 3D de alta calidad, que muestre una escena de acción del cuento: "
      ++ jsSubstring story 50 100 ++ "...",
   "Render 3D de alta calidad, que muestre el final feliz del cuento: "
      ++ jsSubstring story 100 150 ++ "..."]

/-- Embeds the retry loop of `generarPromptsSecuenciales` (lines 163-187).
`env i` gives attempt `i`'s outcome: `none` = thrown error, `some texts` = a
response whose candidates' first-part texts are `texts`.  Branches:
thrown error (lines 183-186) and missing candidates (lines 179-182) warn and
sleep; a candidate text that fails to yield a non-empty JSON array
(lines 169-178) warns (or silently falls through, when `JSON.parse` succeeds
with an empty or non-array value) and continues WITHOUT sleeping; success
returns `prompts.slice(0, numPrompts)` (line 174).
Returns `(result, attemptsMade, sleptIndices)`. -/
def promptsLoop (numPrompts : Nat) (env : Nat → Option (List String)) :
    Nat → Nat → Option (List String) × Nat × List Nat
  | _, 0 => (none, 0, [])
  | i, fuel + 1 =>
    match env i with
    | none =>
      let r := promptsLoop numPrompts env (i + 1) fuel
      (r.1, r.2.1 + 1, i :: r.2.2)
    | some [] =>
      let r := promptsLoop numPrompts env (i + 1) fuel
      (r.1, r.2.1 + 1, i :: r.2.2)
    | some (t :: _) =>
      match extractPrompts t with
      | some l => (some (l.take numPrompts), 1, [])
      | none =>
        let r := promptsLoop numPrompts env (i + 1) fuel
        (r.1, r.2.1 + 1, r.2.2)

/-- Embeds `generarPromptsSecuenciales` (lines 153-196): run the retry loop;
if it returned a parsed list, that is the result; otherwise return the
deterministic fallback (lines 189-195). -/
def generarPromptsSecuenciales (story : String) (numPrompts : Nat)
    (env : Nat → Option (List String)) : List String :=
  match (promptsLoop numPrompts env 0 maxAttempts).1 with
  | some l => l
  | none => fallbackPrompts story

/-- An image-generation response: the list of candidates, each candidate being
its list of parts, a part being `some data` when it carries
`inlineData.data` and `none` for a text part. -/
abbrev ImgResp := List (List (Option String))

/-- Embeds the image success predicate (lines 114-116): candidates non-empty
and `candidates[0].content.parts.find(p => p.inlineData)?.inlineData.data`
present. -/
def imageExtract : ImgResp → Option String
  | [] => none
  | parts :: _ =>
    match parts.filterMap id with
    | [] => none
    | d :: _ => some d

/-- Embeds the file-URL construction of lines 118-121:
`/images/cuento_ilustrado_<Date.now()>_<j+1>.png` pushed onto `imageUrls`. -/
def mkImageUrl (ts j1 : Nat) : String :=
  "/images/cuento_ilustrado_" ++ toString ts ++ "_" ++ toString j1 ++ ".png"

/-- Embeds the outer loop of lines 100-138: for each prompt (index `j`), run
the bounded retry loop; on success append the generated URL, on exhaustion
append nothing and continue with the next prompt.  `imagenEnv j i` is the
outcome of attempt `i` for prompt `j`; `ts j` is the `Date.now()` value when
prompt `j`'s image is written. -/
def imagenesLoop (imagenEnv : Nat → Nat → Option ImgResp) (ts : Nat → Nat) :
    Nat → List String → List String → List String
  | _, acc, [] => acc
  | j, acc, _ :: rest =>
    match (retryLoop imageExtract (imagenEnv j) 0 maxAttempts).1 with
    | some _ => imagenesLoop imagenEnv ts (j + 1) (acc ++ [mkImageUrl (ts j) (j + 1)]) rest
    | none => imagenesLoop imagenEnv ts (j + 1) acc rest

/-- Embeds lines 100-142 as a stage: generate the images for all prompts, then
fail with the fatal error of line 141 exactly when `imageUrls.length === 0`. -/
def ilustrar (imagenEnv : Nat → Nat → Option ImgResp) (ts : Nat → Nat)
    (prompts : List String) : Except String (List String) :=
  match imagenesLoop imagenEnv ts 0 [] prompts with
  | [] => Except.error "No se pudo generar ninguna imagen después de varios intentos."
  | urls@(_ :: _) => Except.ok urls

/-- The remote/temporal environment of one `crearCuentoEImagenesSecuencia`
call: outcomes of the story attempts, of the scene-prompt attempts, of each
prompt's image attempts, and the write timestamps. -/
structure PipelineEnv where
  cuentoEnv : Nat → Option (List String)
  promptsEnv : Nat → Option (List String)
  imagenEnv : Nat → Nat → Option ImgResp
  ts : Nat → Nat

/-- Embeds `crearCuentoEImagenesSecuencia` (lines 60-145): story retry loop
(lines 73-88), fatal error when no story (lines 89-91), sequential prompts
(line 97), image fan-out and the zero-images fatal error (lines 100-142),
result `{ cuento, imageUrls }` (line 144). -/
def crearCuentoEImagenesSecuencia (personaje lugar objeto : String)
    (numImages : Nat) (env : PipelineEnv) : Except String (String × List String) :=
  match (retryLoop storyExtract env.cuentoEnv 0 maxAttempts).1 with
  | none => Except.error "No se pudo generar el cuento después de varios intentos."
  | some cuento =>
    let imagePrompts := generarPromptsSecuenciales cuento numImages env.promptsEnv
    match ilustrar env.imagenEnv env.ts imagePrompts with
    | Except.error e => Except.error e
    | Except.ok imageUrls => Except.ok (cuento, imageUrls)

/-- A TTS candidate: its list of parts, a part being `some (mimeType, bytes)`
when it carries `inlineData` (bytes already base64-decoded) and `none` for
other parts. -/
abbrev AudioCand := List (Option (String × List Nat))

/-- Embeds the audio loop's success predicate (line 235):
`response && response.candidates && response.candidates.length > 0`; on
success the loop breaks keeping the whole candidates list. -/
def audioExtract : List AudioCand → Option (List AudioCand)
  | [] => none
  | c :: cs => some (c :: cs)

/-- Embeds `mimeType.match(/rate=(\d+)/)` followed by `parseInt(..., 10)`
(line 261): scan left to right for an occurrence of `rate=` immediately
followed by at least one digit; the captured value is the maximal digit run. -/
def parseRateAux : List Char → Option Nat
  | 'r' :: 'a' :: 't' :: 'e' :: '=' :: ds =>
    match ds.takeWhile Char.isDigit with
    | [] => parseRateAux ('a' :: 't' :: 'e' :: '=' :: ds)
    | run => some (run.foldl (fun n c => n * 10 + (c.toNat - 48)) 0)
  | _ :: rest => parseRateAux rest
  | [] => none

/-- Embeds line 261 on a whole string: `none` models the `TypeError` thrown
when `match` returns `null`. -/
def parseRate (s : String) : Option Nat :=
  parseRateAux s.data

/-- Embeds the little-endian signed 16-bit read of one sample:
two consecutive bytes `lo, hi` viewed through `Int16Array`. -/
def int16OfPair (lo hi : Nat) : Int :=
  let u := lo % 256 + (hi % 256) * 256
  if u < 32768 then (u : Int) else (u : Int) - 65536

/-- Embeds `new Int16Array(pcmData.buffer, pcmData.byteOffset, pcmData.byteLength / 2)`
(line 266): consecutive byte pairs as little-endian signed 16-bit integers, a
trailing odd byte ignored (the length index is truncated). -/
def pcm16Samples : List Nat → List Int
  | lo :: hi :: rest => int16OfPair lo hi :: pcm16Samples rest
  | _ => []

/-- Embeds `new Float32Array(pcm16).map(sample => sample / 32768)` (line 270).
Every signed 16-bit integer and every such integer divided by the power of two
`32768` is exactly representable in binary32, so the floating computation is
exact and is modelled in `ℚ`. -/
def floatSamples (bytes : List Nat) : List ℚ :=
  (pcm16Samples bytes).map (fun s : Int => (s : ℚ) / 32768)

/-- The `wavData` object of lines 268-271: the parsed sample rate and the
single channel of normalized samples. -/
structure WavData where
  sampleRate : Nat
  channel : List ℚ
deriving DecidableEq

/-- Embeds lines 260-271 of `generarAudioDeCuento`: parse the declared rate
from the part's media type and decode the PCM payload; `none` models the
`TypeError` when the media type carries no `rate=<digits>`. -/
def narracionWav (mimeType : String) (bytes : List Nat) : Option WavData :=
  match parseRate mimeType with
  | none => none
  | some r => some ⟨r, floatSamples bytes⟩

/-- The three response shapes of the `/create-story` handler. -/
inductive HttpResp where
  | badRequest (body : String)
  | ok (cuento : String) (imageUrls : List String)
  | serverError (body : String)
deriving DecidableEq

/-- JavaScript truthiness of an optional query-string value: absent and the
empty string are falsy. -/
def truthy : Option String → Bool
  | none => false
  | some s => !(s == "")

/-- Embeds `` `${req.protocol}://${req.get('host')}${imageUrl}` `` (line 310). -/
def absUrl (protocol host url : String) : String :=
  protocol ++ "://" ++ host ++ url

/-- Embeds the `GET /create-story` handler (lines 299-321): falsy-parameter
check first (lines 302-304), then the pipeline with `numImages = 1`; a thrown
pipeline error is caught and mapped to the fixed 500 body (line 319). -/
def createStoryHandler (personaje lugar objeto : Option String)
    (protocol host : String) (env : PipelineEnv) : HttpResp :=
  if !truthy personaje || !truthy lugar || !truthy objeto then
    HttpResp.badRequest "Faltan parámetros: personaje, lugar y objeto son obligatorios."
  else
    match crearCuentoEImagenesSecuencia (personaje.getD "") (lugar.getD "")
        (objeto.getD "") 1 env with
    | Except.ok (cuento, imageUrls) =>
        HttpResp.ok cuento (imageUrls.map (absUrl protocol host))
    | Except.error _ =>
        HttpResp.serverError "Hubo un error al generar el cuento y la imagen."

/-- A scene-prompt attempt outcome that fails the stage's success condition:
thrown error, missing candidates, or a candidate text with no parseable
non-empty JSON array. -/
def promptAttemptFails : Option (List String) → Bool
  | none => true
  | some [] => true
  | some (t :: _) => (extractPrompts t).isNone

/-- A scene-prompt attempt outcome that fails before any candidate text is
seen (thrown error or missing candidates) — the branches that sleep. -/
def hardFailAttempt : Option (List String) → Bool
  | none => true
  | some [] => true
  | some (_ :: _) => false

/-- A scene-prompt attempt outcome that delivers a candidate text which then
fails JSON-array extraction — the branch that does NOT sleep. -/
def parseFailAttempt : Option (List String) → Bool
  | some (t :: _) => (extractPrompts t).isNone
  | _ => false

/-- Propositional form of a failing scene-prompt attempt, convenient for
hypotheses: whenever the outcome carries a candidate text, extraction fails on
it (outcomes without a candidate text fail unconditionally). -/
def promptFailsP (o : Option (List String)) : Prop :=
  ∀ t rest, o = some (t :: rest) → extractPrompts t = none

deriving instance DecidableEq for Except

/-- Equality on audio attempt outcomes is decidable; assembled explicitly
because the nested type exceeds the default instance-search size. -/
instance : DecidableEq (Option (List AudioCand)) :=
  @Option.instDecidableEq _ inferInstance

/-- A concrete fully-successful pipeline environment: the story succeeds on
the first attempt, the scene prompts parse on the first attempt, every image
succeeds on the first attempt, all timestamps are `7`. -/
def envC9 : PipelineEnv :=
  ⟨fun _ => some ["story"], fun _ => some ["[\"p1\"]"],
   fun _ _ => some [[some "img"]], fun _ => 7⟩

/-- A retry loop whose attempts all fail makes exactly `fuel` attempts, yields
no result, and sleeps once per attempt, at indices `i, i+1, ..., i+fuel-1`. -/
theorem retryLoop_all_fail {α β : Type} (extract : α → Option β) (env : Nat → Option α) :
    ∀ (fuel i : Nat), (∀ k, i ≤ k → k < i + fuel → ((env k).bind extract) = none) →
    retryLoop extract env i fuel = (none, fuel, List.range' i fuel)
  | 0, i, _ => by simp [retryLoop]
  | fuel + 1, i, h => by
    have h0 : ((env i).bind extract) = none := h i (Nat.le_refl i) (by omega)
    have ih := retryLoop_all_fail extract env fuel (i + 1)
      (fun k h1 h2 => h k (by omega) (by omega))
    simp [retryLoop, h0, ih, List.range'_succ]

/-- A retry loop that succeeds at the current attempt returns that attempt's
payload after one attempt and no sleep. -/
theorem retryLoop_first_success {α β : Type} (extract : α → Option β)
    (env : Nat → Option α) (i fuel : Nat) (b : β)
    (h : ((env i).bind extract) = some b) :
    retryLoop extract env i (fuel + 1) = (some b, 1, []) := by
  simp [retryLoop, h]

/-- A failing scene-prompt attempt in boolean form also fails propositionally. -/
theorem promptFailsP_of_bool {o : Option (List String)}
    (h : promptAttemptFails o = true) : promptFailsP o := by
  intro t rest he
  subst he
  simpa [promptAttemptFails, Option.isNone_iff_eq_none] using h

/-- A scene-prompt retry loop whose attempts all fail makes exactly `fuel`
attempts and yields no result. -/
theorem promptsLoop_all_fail (n : Nat) (env : Nat → Option (List String)) :
    ∀ (fuel i : Nat), (∀ k, i ≤ k → k < i + fuel → promptFailsP (env k)) →
    (promptsLoop n env i fuel).1 = none ∧ (promptsLoop n env i fuel).2.1 = fuel
  | 0, i, _ => by simp [promptsLoop]
  | fuel + 1, i, h => by
    have ih := promptsLoop_all_fail n env fuel (i + 1)
      (fun k h1 h2 => h k (by omega) (by omega))
    rcases he : env i with - | l
    · simp [promptsLoop, he, ih.1, ih.2]
    · rcases l with - | ⟨t, rest⟩
      · simp [promptsLoop, he, ih.1, ih.2]
      · have hx : extractPrompts t = none := h i (Nat.le_refl i) (by omega) t rest he
        simp [promptsLoop, he, hx, ih.1, ih.2]

/-- When every attempt of the scene-prompt loop fails before any candidate
text is seen (thrown error or missing candidates), the loop sleeps once per
attempt, exactly as the generic retry loops do. -/
theorem promptsLoop_hard_fail (n : Nat) (env : Nat → Option (List String)) :
    ∀ (fuel i : Nat), (∀ k, i ≤ k → k < i + fuel → hardFailAttempt (env k) = true) →
    promptsLoop n env i fuel = (none, fuel, List.range' i fuel)
  | 0, i, _ => by simp [promptsLoop]
  | fuel + 1, i, h => by
    have ih := promptsLoop_hard_fail n env fuel (i + 1)
      (fun k h1 h2 => h k (by omega) (by omega))
    have h0 := h i (Nat.le_refl i) (by omega)
    rcases he : env i with - | l
    · simp [promptsLoop, he, ih, List.range'_succ]
    · rcases l with - | ⟨t, rest⟩
      · simp [promptsLoop, he, ih, List.range'_succ]
      · rw [he] at h0
        simp [hardFailAttempt] at h0

/-- When every attempt of the scene-prompt loop delivers a candidate text that
fails JSON-array extraction, the loop never sleeps at all. -/
theorem promptsLoop_parse_fail (n : Nat) (env : Nat → Option (List String)) :
    ∀ (fuel i : Nat), (∀ k, i ≤ k → k < i + fuel → parseFailAttempt (env k) = true) →
    promptsLoop n env i fuel = (none, fuel, [])
  | 0, i, _ => by simp [promptsLoop]
  | fuel + 1, i, h => by
    have ih := promptsLoop_parse_fail n env fuel (i + 1)
      (fun k h1 h2 => h k (by omega) (by omega))
    have h0 := h i (Nat.le_refl i) (by omega)
    rcases he : env i with - | l
    · rw [he] at h0; simp [parseFailAttempt] at h0
    · rcases l with - | ⟨t, rest⟩
      · rw [he] at h0; simp [parseFailAttempt] at h0
      · rw [he] at h0
        have hx : extractPrompts t = none := by
          simpa [parseFailAttempt, Option.isNone_iff_eq_none] using h0
        simp [promptsLoop, he, hx, ih]

/-- Any list the scene-prompt loop itself returns has been truncated to at
most `n` elements. -/
theorem promptsLoop_some_length (n : Nat) (env : Nat → Option (List String)) :
    ∀ (fuel i : Nat) (l : List String),
    (promptsLoop n env i fuel).1 = some l → l.length ≤ n
  | 0, i, l, h => by simp [promptsLoop] at h
  | fuel + 1, i, l, h => by
    rcases he : env i with - | ll
    · simp only [promptsLoop, he] at h
      exact promptsLoop_some_length n env fuel (i + 1) l h
    · rcases ll with - | ⟨t, rest⟩
      · simp only [promptsLoop, he] at h
        exact promptsLoop_some_length n env fuel (i + 1) l h
      · rcases hx : extractPrompts t with - | l2
        · simp only [promptsLoop, he, hx] at h
          exact promptsLoop_some_length n env fuel (i + 1) l h
        · simp only [promptsLoop, he, hx, Option.some.injEq] at h
          subst h
          exact List.length_take_le n l2

/-- The fence-stripping core only deletes characters. -/
theorem cleanFencesGo_sublist :
    ∀ (fuel : Nat) (cs : List Char), List.Sublist (cleanFencesGo fuel cs) cs := by
  intro fuel
  induction fuel with
  | zero => intro cs; cases cs <;> simp [cleanFencesGo]
  | succ f ih =>
    intro cs
    cases cs with
    | nil => simp [cleanFencesGo]
    | cons c rest =>
      rw [cleanFencesGo]
      split_ifs with h1 h2
      · exact (ih (rest.drop 6)).trans
          ((List.drop_sublist 6 rest).trans (List.sublist_cons_self c rest))
      · exact (ih (rest.drop 2)).trans
          ((List.drop_sublist 2 rest).trans (List.sublist_cons_self c rest))
      · exact (ih rest).cons₂ c

/-- Fence stripping only deletes characters. -/
theorem cleanFences_sublist (cs : List Char) : List.Sublist (cleanFences cs) cs :=
  cleanFencesGo_sublist cs.length cs

/-- Trimming only deletes characters. -/
theorem mem_of_mem_trimChars {c : Char} {l : List Char} (h : c ∈ trimChars l) : c ∈ l := by
  unfold trimChars at h
  rw [List.mem_reverse] at h
  have h2 := (List.dropWhile_sublist isTrimWs).subset h
  rw [List.mem_reverse] at h2
  exact (List.dropWhile_sublist isTrimWs).subset h2

/-- A string with no `[` anywhere cannot parse as a JSON array. -/
theorem parseArr_none_of_no_bracket (l : List Char) (h : '[' ∉ l) : parseArr l = none := by
  unfold parseArr
  split
  · next rest heq =>
    exact absurd ((List.dropWhile_sublist isJsonWs).subset
      (heq ▸ List.mem_cons_self '[' rest)) h
  · rfl

/-- The tolerant extraction of lines 171-175 fails on any candidate text with
no `[` character: taking the substring from the first `[`, stripping fences and
trimming never introduce a `[`, and a JSON array must start with one. -/
theorem extractPrompts_none_of_no_bracket (t : String) (h : '[' ∉ t.data) :
    extractPrompts t = none := by
  have h1 : fromFirstBracket t.data = t.data := by
    simp [fromFirstBracket, h]
  have h2 : '[' ∉ trimChars (cleanFences (fromFirstBracket t.data)) := by
    rw [h1]
    intro hmem
    exact h ((cleanFences_sublist t.data).subset (mem_of_mem_trimChars hmem))
  unfold extractPrompts
  rw [parseArr_none_of_no_bracket _ h2]

/-- The per-prompt image loop appends exactly the URLs of the prompts whose
retries succeed, in prompt order: prompt `k` (0-based) contributes
`mkImageUrl (ts k) (k+1)` when its retry loop yields a payload and nothing
when it exhausts. -/
theorem imagenesLoop_eq (imagenEnv : Nat → Nat → Option ImgResp) (ts : Nat → Nat) :
    ∀ (prompts : List String) (j : Nat) (acc : List String),
    imagenesLoop imagenEnv ts j acc prompts =
      acc ++ (List.range' j prompts.length).filterMap
        (fun k => ((retryLoop imageExtract (imagenEnv k) 0 maxAttempts).1).map
          (fun _ => mkImageUrl (ts k) (k + 1)))
  | [], j, acc => by simp [imagenesLoop]
  | _ :: rest, j, acc => by
    rcases hres : (retryLoop imageExtract (imagenEnv j) 0 maxAttempts).1 with - | d
    · rw [imagenesLoop, hres]
      rw [imagenesLoop_eq imagenEnv ts rest (j + 1) acc]
      simp [List.range'_succ, hres]
    · rw [imagenesLoop, hres]
      rw [imagenesLoop_eq imagenEnv ts rest (j + 1) (acc ++ [mkImageUrl (ts j) (j + 1)])]
      simp [List.range'_succ, hres]

/-- Index form of the paired little-endian 16-bit decoding: sample `i` comes
from bytes `2*i` and `2*i+1`. -/
theorem pcm16Samples_getElem? : ∀ (bytes : List Nat) (i : Nat), 2 * i + 1 < bytes.length →
    (pcm16Samples bytes)[i]? = some (int16OfPair (bytes.getD (2 * i) 0) (bytes.getD (2 * i + 1) 0))
  | [], i, h => by simp at h
  | [b], i, h => by
    simp only [List.length_cons, List.length_nil] at h
    omega
  | lo :: hi :: rest, 0, h => by simp [pcm16Samples]
  | lo :: hi :: rest, i + 1, h => by
    have hh : 2 * i + 1 < rest.length := by
      simp [List.length_cons] at h
      omega
    have ih := pcm16Samples_getElem? rest i hh
    have e1 : 2 * (i + 1) = 2 * i + 1 + 1 := by omega
    rw [e1]
    simp only [pcm16Samples, List.getElem?_cons_succ, List.getD_cons_succ]
    exact ih

/-- The scene-prompt loop succeeding at the current attempt returns the parsed
list truncated to `numPrompts`, after one attempt and no sleep. -/
theorem promptsLoop_first_success (n : Nat) (env : Nat → Option (List String))
    (i fuel : Nat) (t : String) (ts l : List String)
    (he : env i = some (t :: ts)) (hx : extractPrompts t = some l) :
    promptsLoop n env i (fuel + 1) = (some (l.take n), 1, []) := by
  simp [promptsLoop, he, hx]

/-- Claim C1: in every generation stage's retry loop (story, scene prompts,
image, audio), if the wrapped operation fails on every attempt, the loop makes
exactly 5 attempts — no more, no fewer — and hands the terminal-exhaustion
outcome (`none`) to the surrounding code. -/
theorem c1_retry_exhaustion (envS envP : Nat → Option (List String))
    (envI : Nat → Option ImgResp) (envA : Nat → Option (List AudioCand)) (n : Nat)
    (hS : ∀ i < maxAttempts, ((envS i).bind storyExtract) = none)
    (hP : ∀ i < maxAttempts, promptAttemptFails (envP i) = true)
    (hI : ∀ i < maxAttempts, ((envI i).bind imageExtract) = none)
    (hA : ∀ i < maxAttempts, ((envA i).bind audioExtract) = none) :
    (retryLoop storyExtract envS 0 maxAttempts).1 = none ∧
    (retryLoop storyExtract envS 0 maxAttempts).2.1 = 5 ∧
    (promptsLoop n envP 0 maxAttempts).1 = none ∧
    (promptsLoop n envP 0 maxAttempts).2.1 = 5 ∧
    (retryLoop imageExtract envI 0 maxAttempts).1 = none ∧
    (retryLoop imageExtract envI 0 maxAttempts).2.1 = 5 ∧
    (retryLoop audioExtract envA 0 maxAttempts).1 = none ∧
    (retryLoop audioExtract envA 0 maxAttempts).2.1 = 5 := by
  have hS2 := retryLoop_all_fail storyExtract envS maxAttempts 0
    (fun k h1 h2 => hS k (by omega))
  have hP2 := promptsLoop_all_fail n envP maxAttempts 0
    (fun k h1 h2 => promptFailsP_of_bool (hP k (by omega)))
  have hI2 := retryLoop_all_fail imageExtract envI maxAttempts 0
    (fun k h1 h2 => hI k (by omega))
  have hA2 := retryLoop_all_fail audioExtract envA maxAttempts 0
    (fun k h1 h2 => hA k (by omega))
  rw [hS2, hI2, hA2]
  exact ⟨rfl, rfl, hP2.1, hP2.2, rfl, rfl, rfl, rfl⟩

/-- Witness for C1 at environments that always throw. -/
theorem c1_witness :
    (∀ i < maxAttempts,
      (((fun _ => (none : Option (List String))) i).bind storyExtract) = none) ∧
    (∀ i < maxAttempts,
      promptAttemptFails ((fun _ => (none : Option (List String))) i) = true) ∧
    (∀ i < maxAttempts,
      (((fun _ => (none : Option ImgResp)) i).bind imageExtract) = none) ∧
    (∀ i < maxAttempts,
      (((fun _ => (none : Option (List AudioCand))) i).bind audioExtract) = none) ∧
    ((retryLoop storyExtract (fun _ => none) 0 maxAttempts).1 = none ∧
     (retryLoop storyExtract (fun _ => none) 0 maxAttempts).2.1 = 5 ∧
     (promptsLoop 3 (fun _ => none) 0 maxAttempts).1 = none ∧
     (promptsLoop 3 (fun _ => none) 0 maxAttempts).2.1 = 5 ∧
     (retryLoop imageExtract (fun _ => none) 0 maxAttempts).1 = none ∧
     (retryLoop imageExtract (fun _ => none) 0 maxAttempts).2.1 = 5 ∧
     (retryLoop audioExtract (fun _ => none) 0 maxAttempts).1 = none ∧
     (retryLoop audioExtract (fun _ => none) 0 maxAttempts).2.1 = 5) :=
  ⟨by decide, by decide, by decide, by decide,
   c1_retry_exhaustion (fun _ => none) (fun _ => none) (fun _ => none) (fun _ => none) 3
     (by decide) (by decide) (by decide) (by decide)⟩

/-- Counterexample to Claim C2 as stated: a scene-prompt attempt that returns
candidates whose text has no parseable JSON array fails the stage's success
predicate, yet the loop performs zero backoff waits across five such failing
attempts (the parse-failure branch has no `await sleep(i)`). -/
theorem c2_counterexample :
    (promptsLoop 3 (fun _ => some ["sin corchetes"]) 0 maxAttempts).1 = none ∧
    (promptsLoop 3 (fun _ => some ["sin corchetes"]) 0 maxAttempts).2.1 = 5 ∧
    (promptsLoop 3 (fun _ => some ["sin corchetes"]) 0 maxAttempts).2.2 = [] ∧
    ¬((promptsLoop 3 (fun _ => some ["sin corchetes"]) 0 maxAttempts).2.2.length =
      (promptsLoop 3 (fun _ => some ["sin corchetes"]) 0 maxAttempts).2.1) := by
  decide

/-- Claim C2 as amended: the story loop (and the other generic loops) wait
once per failing attempt; in the scene-prompt loop only attempts that throw or
lack candidates wait, while an attempt whose candidate text fails to parse as
a non-empty JSON array continues to the next attempt WITHOUT waiting. -/
theorem c2_amended_waits (envS envH envP : Nat → Option (List String)) (n m : Nat)
    (hS : ∀ i < maxAttempts, ((envS i).bind storyExtract) = none)
    (hH : ∀ i < maxAttempts, hardFailAttempt (envH i) = true)
    (hP : ∀ i < maxAttempts, parseFailAttempt (envP i) = true) :
    retryLoop storyExtract envS 0 maxAttempts = (none, 5, [0, 1, 2, 3, 4]) ∧
    promptsLoop n envH 0 maxAttempts = (none, 5, [0, 1, 2, 3, 4]) ∧
    promptsLoop m envP 0 maxAttempts = (none, 5, []) := by
  have hS2 := retryLoop_all_fail storyExtract envS maxAttempts 0
    (fun k h1 h2 => hS k (by omega))
  have hH2 := promptsLoop_hard_fail n envH maxAttempts 0
    (fun k h1 h2 => hH k (by omega))
  have hP2 := promptsLoop_parse_fail m envP maxAttempts 0
    (fun k h1 h2 => hP k (by omega))
  exact ⟨hS2.trans (by decide), hH2.trans (by decide), hP2⟩

/-- Witness for the amended C2. -/
theorem c2_witness :
    (∀ i < maxAttempts,
      (((fun _ => (none : Option (List String))) i).bind storyExtract) = none) ∧
    (∀ i < maxAttempts,
      hardFailAttempt ((fun _ => (some [] : Option (List String))) i) = true) ∧
    (∀ i < maxAttempts,
      parseFailAttempt ((fun _ => (some ["texto sin arreglo"] : Option (List String))) i) = true) ∧
    (retryLoop storyExtract (fun _ => none) 0 maxAttempts = (none, 5, [0, 1, 2, 3, 4]) ∧
     promptsLoop 3 (fun _ => some []) 0 maxAttempts = (none, 5, [0, 1, 2, 3, 4]) ∧
     promptsLoop 1 (fun _ => some ["texto sin arreglo"]) 0 maxAttempts = (none, 5, [])) :=
  ⟨by decide, by decide, by decide,
   c2_amended_waits (fun _ => none) (fun _ => some []) (fun _ => some ["texto sin arreglo"])
     3 1 (by decide) (by decide) (by decide)⟩

/-- Counterexample to Claim C3 as stated: with requested count N = 1 and every
attempt failing, the Scene-Prompt Stage returns the 3-element fallback, whose
length exceeds N. -/
theorem c3_counterexample :
    ¬((generarPromptsSecuenciales "abc" 1 (fun _ => none)).length ≤ 1) := by
  decide

/-- Claim C3 as amended: the scene-prompt list is truncated to at most N
elements whenever it comes from a successfully parsed remote response; the
fallback path instead always yields exactly 3 elements, regardless of N. -/
theorem c3_amended_length (story : String) (n : Nat) (env : Nat → Option (List String)) :
    (generarPromptsSecuenciales story n env).length ≤ n ∨
    (generarPromptsSecuenciales story n env = fallbackPrompts story ∧
     (generarPromptsSecuenciales story n env).length = 3) := by
  rcases h : (promptsLoop n env 0 maxAttempts).1 with - | l
  · right
    refine ⟨by simp [generarPromptsSecuenciales, h], ?_⟩
    simp [generarPromptsSecuenciales, h, fallbackPrompts]
  · left
    have hlen := promptsLoop_some_length n env maxAttempts 0 l h
    simpa [generarPromptsSecuenciales, h] using hlen

/-- Claim C4: for every attempt index a < 5 and every floored random draw
j < 1000, the backoff delay is 2^a seconds plus the sub-second jitter;
equivalently it lies in [2^a, 2^a + 1) seconds, i.e.
[2^a * 1000, 2^a * 1000 + 1000) milliseconds. -/
theorem c4_backoff_interval (a j : Nat) (ha : a < maxAttempts) (hj : j < 1000) :
    2 ^ a * 1000 ≤ sleepDelay a j ∧ sleepDelay a j < 2 ^ a * 1000 + 1000 := by
  unfold sleepDelay
  exact ⟨Nat.le_add_right _ _, Nat.add_lt_add_left hj _⟩

/-- Witness for C4 at attempt 3 with draw 500. -/
theorem c4_witness :
    3 < maxAttempts ∧ 500 < 1000 ∧
    (2 ^ 3 * 1000 ≤ sleepDelay 3 500 ∧ sleepDelay 3 500 < 2 ^ 3 * 1000 + 1000) :=
  ⟨by decide, by decide, c4_backoff_interval 3 500 (by decide) (by decide)⟩

/-- Claim C5: when every attempt's candidate text contains no `[` character
(attempts that throw or lack candidates also failing), the Scene-Prompt Stage
returns the deterministic 3-element fallback: the story's characters 0-50,
50-100 and 100-150, each wrapped in its fixed template sentence. -/
theorem c5_no_bracket_fallback (story : String) (n : Nat)
    (env : Nat → Option (List String))
    (h : ∀ i < maxAttempts, ∀ t rest, env i = some (t :: rest) → '[' ∉ t.data) :
    generarPromptsSecuenciales story n env =
      ["Render 3D de alta calidad, que muestre la escena principal del cuento: "
          ++ jsSubstring story 0 50 ++ "...",
       "Render 3D de alta calidad, que muestre una escena de acción del cuento: "
          ++ jsSubstring story 50 100 ++ "...",
       "Render 3D de alta calidad, que muestre el final feliz del cuento: "
          ++ jsSubstring story 100 150 ++ "..."] := by
  have hfail : ∀ k, 0 ≤ k → k < 0 + maxAttempts → promptFailsP (env k) := by
    intro k h1 h2 t rest he
    exact extractPrompts_none_of_no_bracket t (h k (by omega) t rest he)
  have hl := (promptsLoop_all_fail n env maxAttempts 0 hfail).1
  simp [generarPromptsSecuenciales, hl, fallbackPrompts]

/-- Witness for C5: a candidate text without brackets on every attempt, with a
short story whose later 50-character windows are empty. -/
theorem c5_witness :
    (∀ i < maxAttempts, ∀ t rest,
      (fun _ => (some ["hola"] : Option (List String))) i = some (t :: rest) →
      '[' ∉ t.data) ∧
    generarPromptsSecuenciales "abc" 1 (fun _ => some ["hola"]) =
      ["Render 3D de alta calidad, que muestre la escena principal del cuento: "
          ++ jsSubstring "abc" 0 50 ++ "...",
       "Render 3D de alta calidad, que muestre una escena de acción del cuento: "
          ++ jsSubstring "abc" 50 100 ++ "...",
       "Render 3D de alta calidad, que muestre el final feliz del cuento: "
          ++ jsSubstring "abc" 100 150 ++ "..."] := by
  have hh : ∀ i < maxAttempts, ∀ t rest,
      (fun _ => (some ["hola"] : Option (List String))) i = some (t :: rest) →
      '[' ∉ t.data := by
    intro i _ t rest he
    simp only [Option.some.injEq, List.cons.injEq] at he
    rcases he with ⟨h1, -⟩
    subst h1
    decide
  exact ⟨hh, c5_no_bracket_fallback "abc" 1 (fun _ => some ["hola"]) hh⟩

/-- Claim C6: a scene-prompt attempt whose candidate text is a JSON array
wrapped in markdown code fences parses through the tolerant extraction (take
from the first `[`, strip fences, trim, parse) to exactly that array,
truncated to the requested count. -/
theorem c6_fenced_json (story : String) (n : Nat) :
    generarPromptsSecuenciales story n
      (fun _ => some ["```json\n[\"a\",\"b\",\"c\"]\n```"]) = ["a", "b", "c"].take n := by
  have hx : extractPrompts "```json\n[\"a\",\"b\",\"c\"]\n```" = some ["a", "b", "c"] := by
    decide
  have h5 : promptsLoop n (fun _ => some ["```json\n[\"a\",\"b\",\"c\"]\n```"]) 0 maxAttempts =
      (some ((["a", "b", "c"] : List String).take n), 1, []) :=
    promptsLoop_first_success n
      (fun _ => some ["```json\n[\"a\",\"b\",\"c\"]\n```"]) 0 4
      "```json\n[\"a\",\"b\",\"c\"]\n```" [] ["a", "b", "c"] rfl hx
  simp [generarPromptsSecuenciales, h5]

/-- Claim C7: the Illustration Stage's URL list is exactly the in-order list
of URLs of the prompts whose retries succeeded — a prompt whose retries
exhaust contributes nothing and processing continues — and the stage raises
its fatal error if and only if every prompt's retries exhausted, i.e. the
final list is empty. -/
theorem c7_ilustrar_order_skip_error (imagenEnv : Nat → Nat → Option ImgResp)
    (ts : Nat → Nat) (prompts : List String) :
    imagenesLoop imagenEnv ts 0 [] prompts =
      (List.range' 0 prompts.length).filterMap
        (fun k => ((retryLoop imageExtract (imagenEnv k) 0 maxAttempts).1).map
          (fun _ => mkImageUrl (ts k) (k + 1))) ∧
    (ilustrar imagenEnv ts prompts =
        Except.error "No se pudo generar ninguna imagen después de varios intentos." ↔
      ∀ k < prompts.length, (retryLoop imageExtract (imagenEnv k) 0 maxAttempts).1 = none) := by
  have h1 := imagenesLoop_eq imagenEnv ts prompts 0 []
  simp only [List.nil_append] at h1
  refine ⟨h1, ?_⟩
  unfold ilustrar
  rw [h1]
  rcases hu : (List.range' 0 prompts.length).filterMap
      (fun k => ((retryLoop imageExtract (imagenEnv k) 0 maxAttempts).1).map
        (fun _ => mkImageUrl (ts k) (k + 1))) with - | ⟨u, us⟩
  · simp only [List.filterMap_eq_nil_iff] at hu
    constructor
    · intro _ k hk
      have hm : k ∈ List.range' 0 prompts.length := by
        rw [List.mem_range']
        exact ⟨k, hk, by omega⟩
      exact Option.map_eq_none'.mp (hu k hm)
    · intro _
      rfl
  · constructor
    · intro habs
      exact absurd habs (by simp)
    · intro hall
      have hnil : (List.range' 0 prompts.length).filterMap
          (fun k => ((retryLoop imageExtract (imagenEnv k) 0 maxAttempts).1).map
            (fun _ => mkImageUrl (ts k) (k + 1))) = [] := by
        rw [List.filterMap_eq_nil_iff]
        intro a ha
        rw [List.mem_range'] at ha
        obtain ⟨i2, hi2, he⟩ := ha
        subst he
        rw [hall (0 + 1 * i2) (by omega)]
        rfl
      rw [hu] at hnil
      exact absurd hnil (by simp)

/-- Claim C8: the Narration Stage's decoding, given a media type declaring
`rate=<integer>` and a PCM payload, emits at the parsed sample rate and maps
the `i`-th little-endian signed 16-bit sample (bytes `2i`, `2i+1`) to exactly
that integer divided by 32768. -/
theorem c8_pcm_decode (mime : String) (bytes : List Nat) (r i : Nat)
    (hr : parseRate mime = some r) (hi : 2 * i + 1 < bytes.length) :
    ∃ w, narracionWav mime bytes = some w ∧ w.sampleRate = r ∧
      w.channel[i]? =
        some ((int16OfPair (bytes.getD (2 * i) 0) (bytes.getD (2 * i + 1) 0) : ℚ) / 32768) := by
  refine ⟨⟨r, floatSamples bytes⟩, ?_, rfl, ?_⟩
  · simp [narracionWav, hr]
  · rw [floatSamples, List.getElem?_map, pcm16Samples_getElem? bytes i hi]
    rfl

/-- Witness for C8: media type `audio/L16;codec=pcm;rate=24000` with the
4-byte payload for the samples {0, 16384}, which decode to {0, 1/2}. -/
theorem c8_witness :
    parseRate "audio/L16;codec=pcm;rate=24000" = some 24000 ∧
    2 * 1 + 1 < ([0, 0, 0, 64] : List Nat).length ∧
    (∃ w, narracionWav "audio/L16;codec=pcm;rate=24000" [0, 0, 0, 64] = some w ∧
      w.sampleRate = 24000 ∧
      w.channel[1]? =
        some ((int16OfPair (([0, 0, 0, 64] : List Nat).getD (2 * 1) 0)
          (([0, 0, 0, 64] : List Nat).getD (2 * 1 + 1) 0) : ℚ) / 32768)) ∧
    narracionWav "audio/L16;codec=pcm;rate=24000" [0, 0, 0, 64] =
      some ⟨24000, [0, 1 / 2]⟩ := by
  refine ⟨by decide, by decide,
    c8_pcm_decode "audio/L16;codec=pcm;rate=24000" [0, 0, 0, 64] 24000 1
      (by decide) (by decide), ?_⟩
  have hr : parseRate "audio/L16;codec=pcm;rate=24000" = some 24000 := by decide
  simp [narracionWav, hr, floatSamples, pcm16Samples, int16OfPair]
  norm_num

/-- Claim C9: `GET /create-story` responds 400 with the fixed error body when
any of `personaje`, `lugar`, `objeto` is missing; 200 with the story and the
image URLs absolutized with the request's protocol and host when the pipeline
completes; and 500 with the fixed generic error body when the pipeline
throws. -/
theorem c9_create_story_handler (p l o : Option String) (prot host : String)
    (env : PipelineEnv) :
    ((p = none ∨ l = none ∨ o = none) →
      createStoryHandler p l o prot host env =
        HttpResp.badRequest "Faltan parámetros: personaje, lugar y objeto son obligatorios.") ∧
    (∀ cuento urls, (truthy p && truthy l && truthy o) = true →
      crearCuentoEImagenesSecuencia (p.getD "") (l.getD "") (o.getD "") 1 env =
        Except.ok (cuento, urls) →
      createStoryHandler p l o prot host env =
        HttpResp.ok cuento (urls.map (absUrl prot host))) ∧
    (∀ e, (truthy p && truthy l && truthy o) = true →
      crearCuentoEImagenesSecuencia (p.getD "") (l.getD "") (o.getD "") 1 env =
        Except.error e →
      createStoryHandler p l o prot host env =
        HttpResp.serverError "Hubo un error al generar el cuento y la imagen.") := by
  refine ⟨?_, ?_, ?_⟩
  · rintro (h | h | h) <;> subst h <;> simp [createStoryHandler, truthy]
  · intro cuento urls ht hc
    simp only [Bool.and_eq_true] at ht
    obtain ⟨⟨h1, h2⟩, h3⟩ := ht
    simp [createStoryHandler, h1, h2, h3, hc]
  · intro e ht hc
    simp only [Bool.and_eq_true] at ht
    obtain ⟨⟨h1, h2⟩, h3⟩ := ht
    simp [createStoryHandler, h1, h2, h3, hc]

/-- Witness for C9 on a fully successful concrete pipeline. -/
theorem c9_witness :
    (truthy (some "a") && truthy (some "b") && truthy (some "c")) = true ∧
    crearCuentoEImagenesSecuencia ((some "a").getD "") ((some "b").getD "")
      ((some "c").getD "") 1 envC9 = Except.ok ("story", [mkImageUrl 7 1]) ∧
    createStoryHandler (some "a") (some "b") (some "c") "http" "h" envC9 =
      HttpResp.ok "story" ([mkImageUrl 7 1].map (absUrl "http" "h")) :=
  ⟨by decide, by decide,
   (c9_create_story_handler (some "a") (some "b") (some "c") "http" "h" envC9).2.1
     "story" [mkImageUrl 7 1] (by decide) (by decide)⟩

/-- Counterexample to Claim C10 as stated: the scene-prompt loop is a retry
loop of the system in which five consecutive failing attempts (candidate text
with no parseable array) incur zero backoff waits, not five. -/
theorem c10_counterexample :
    (promptsLoop 1 (fun _ => some ["respuesta invalida"]) 0 maxAttempts).2.1 = 5 ∧
    (promptsLoop 1 (fun _ => some ["respuesta invalida"]) 0 maxAttempts).2.2 = [] ∧
    ¬((promptsLoop 1 (fun _ => some ["respuesta invalida"]) 0 maxAttempts).2.2 =
      [0, 1, 2, 3, 4]) := by
  decide

/-- Claim C10 as amended: in the story, illustration and narration retry
loops, a failed attempt triggers a backoff wait even on the final (5th)
attempt, so an operation failing on all attempts incurs exactly 5 waits, at
attempt indices 0 through 4 — one of them delaying the terminal failure
itself. (In the scene-prompt loop this holds only for attempts that throw or
lack candidates; parse-failure attempts trigger no wait.) -/
theorem c10_amended_always_waits (envS : Nat → Option (List String))
    (envI : Nat → Option ImgResp) (envA : Nat → Option (List AudioCand))
    (hS : ∀ i < maxAttempts, ((envS i).bind storyExtract) = none)
    (hI : ∀ i < maxAttempts, ((envI i).bind imageExtract) = none)
    (hA : ∀ i < maxAttempts, ((envA i).bind audioExtract) = none) :
    retryLoop storyExtract envS 0 maxAttempts = (none, 5, [0, 1, 2, 3, 4]) ∧
    retryLoop imageExtract envI 0 maxAttempts = (none, 5, [0, 1, 2, 3, 4]) ∧
    retryLoop audioExtract envA 0 maxAttempts = (none, 5, [0, 1, 2, 3, 4]) := by
  have hS2 := retryLoop_all_fail storyExtract envS maxAttempts 0
    (fun k h1 h2 => hS k (by omega))
  have hI2 := retryLoop_all_fail imageExtract envI maxAttempts 0
    (fun k h1 h2 => hI k (by omega))
  have hA2 := retryLoop_all_fail audioExtract envA maxAttempts 0
    (fun k h1 h2 => hA k (by omega))
  exact ⟨hS2.trans (by decide), hI2.trans (by decide), hA2.trans (by decide)⟩

/-- Witness for the amended C10 at environments that always throw. -/
theorem c10_witness :
    (∀ i < maxAttempts,
      (((fun _ => (none : Option (List String))) i).bind storyExtract) = none) ∧
    (∀ i < maxAttempts,
      (((fun _ => (none : Option ImgResp)) i).bind imageExtract) = none) ∧
    (∀ i < maxAttempts,
      (((fun _ => (none : Option (List AudioCand))) i).bind audioExtract) = none) ∧
    (retryLoop storyExtract (fun _ => none) 0 maxAttempts = (none, 5, [0, 1, 2, 3, 4]) ∧
     retryLoop imageExtract (fun _ => none) 0 maxAttempts = (none, 5, [0, 1, 2, 3, 4]) ∧
     retryLoop audioExtract (fun _ => none) 0 maxAttempts = (none, 5, [0, 1, 2, 3, 4])) :=
  ⟨by decide, by decide, by decide,
   c10_amended_always_waits (fun _ => none) (fun _ => none) (fun _ => none)
     (by decide) (by decide) (by decide)⟩
